import Mathlib

/-!
Verification of the resume_bot web application (src/app.py) against its
natural-language specification.

The Python source is shallowly embedded: pure string helpers become Lean
functions on `String`/`List Char`, the two Flask POST handlers become pure
functions over an explicit environment (`Env`) that models the external
libraries (pdfplumber, python-docx, the Gemini client, the markdown
renderer) and an explicit list of files on disk.  Python exceptions from
the external libraries are modelled as `exn`/`Except.error` outcomes.
-/

set_option maxRecDepth 40000
set_option maxHeartbeats 1600000

/-- Python's `str.lower()` restricted to ASCII case mapping, which is all the
comparison against the ASCII literals "pdf"/"docx" in app.py can observe. -/
def pyLower (s : String) : String := String.mk (s.data.map Char.toLower)

/-- The characters after the last '.' of the list: `l.rsplit('.', 1)[1]` in
Python, when a '.' is present. -/
def suffixAfterLastDot (l : List Char) : List Char :=
  (l.reverse.takeWhile (fun c => c != '.')).reverse

/-- app.py line 26-27:
`return '.' in filename and filename.rsplit('.', 1)[1].lower() in {'pdf', 'docx'}` -/
def allowed_file (filename : String) : Bool :=
  List.contains filename.data '.' &&
    (pyLower (String.mk (suffixAfterLastDot filename.data)) == "pdf"
      || pyLower (String.mk (suffixAfterLastDot filename.data)) == "docx")

/-- Python's substring test `pat in l` on strings, as character lists. -/
def pyIn (pat : List Char) : List Char → Bool
  | [] => pat.isEmpty
  | c :: rest => List.isPrefixOf pat (c :: rest) || pyIn pat rest

/-- Number of (possibly overlapping) positions where `pat` occurs in `l`. -/
def countOccs (pat : List Char) : List Char → Nat
  | [] => 0
  | c :: rest => (if List.isPrefixOf pat (c :: rest) then 1 else 0) + countOccs pat rest

/-- The remainder of `l` after the first occurrence of `pat`, if any. -/
def dropToAfter (pat : List Char) : List Char → Option (List Char)
  | [] => none
  | c :: rest =>
      if List.isPrefixOf pat (c :: rest) then some (List.drop pat.length (c :: rest))
      else dropToAfter pat rest

/-- Each pattern occurs, in the given order, at disjoint advancing positions. -/
def inOrder : List (List Char) → List Char → Bool
  | [], _ => true
  | p :: ps, l =>
      match dropToAfter p l with
      | none => false
      | some rest => inOrder ps rest

/-- Python's `s.endswith(suffix)`. -/
def pyEndswith (s suffix : String) : Bool :=
  List.isPrefixOf suffix.data.reverse s.data.reverse

/-- Python's `s.startswith(pre)`. -/
def pyStartswith (s pre : String) : Bool :=
  List.isPrefixOf pre.data s.data

/-- POSIX `os.path.join(a, b)` (app.py line 207 joins the upload folder with
the uploaded filename). -/
def os_path_join (a b : String) : String :=
  if pyStartswith b "/" then b
  else if a = "" || pyEndswith a "/" then a ++ b
  else a ++ "/" ++ b

/-- An opening curly brace character. -/
def lbrace : Char := Char.ofNat 123

/-- A closing curly brace character. -/
def rbrace : Char := Char.ofNat 125

/-- Scanner for Python's `str.format`: outside a field (`Bool` flag false)
characters are copied; inside a field the key is accumulated (reversed) until
the closing brace, then the looked-up value is spliced in.  The templates in
app.py contain no escaped braces and no format specs, so this covers exactly
the fragment of `str.format` they use. -/
def pyFormatAux (lookup : String → String) : Bool → List Char → List Char → List Char
  | _, _, [] => []
  | false, _, c :: rest =>
      if c = lbrace then pyFormatAux lookup true [] rest
      else c :: pyFormatAux lookup false [] rest
  | true, acc, c :: rest =>
      if c = rbrace then (lookup (String.mk acc.reverse)).data ++ pyFormatAux lookup false [] rest
      else pyFormatAux lookup true (c :: acc) rest

/-- Python's `template.format(key=value, ...)` with the values given as a
lookup function. -/
def pyFormat (t : String) (lookup : String → String) : String :=
  String.mk (pyFormatAux lookup false [] t.data)

/-- Python's `str(x)` applied to an `Optional[str]`: `str(None)` is the
four-character string "None", which is what `str.format` interpolates when a
form field was absent (`request.form.get` returned `None`). -/
def pyStr : Option String → String
  | none => "None"
  | some s => s

/-- Python's `page.extract_text() or ""` (app.py line 35): a missing (`None`)
page text contributes the empty string.  (An empty extracted string is also
falsy in Python and likewise yields "", matching `Option.getD`-style reading
with `some ""`.) -/
def pyOrEmpty : Option String → String
  | none => ""
  | some s => s

/-- Outcome of `pdfplumber.open(file_path)` plus reading all pages: either the
per-page texts (`None` for a page with no text), or a raised exception with
its message. -/
inductive PdfResult where
  | ok (pages : List (Option String))
  | exn (msg : String)

/-- Outcome of `docx.Document(file_path)` plus reading all paragraphs: either
the paragraph texts, or a raised exception with its message. -/
inductive DocxResult where
  | ok (paragraphs : List String)
  | exn (msg : String)

/-- app.py lines 29-45.  `text` starts empty; the `.pdf` branch folds the page
texts onto it, the `.docx` branch folds `paragraph.text + "\n"` onto it; each
branch catches any exception and returns the sentinel error string instead;
any other suffix falls through and returns the empty accumulator. -/
def extract_text_from_file (pdfOpen : String → PdfResult)
    (docxOpen : String → DocxResult) (file_path : String) : String :=
  if pyEndswith file_path ".pdf" then
    match pdfOpen file_path with
    | PdfResult.ok pages => pages.foldl (fun text page => text ++ pyOrEmpty page) ""
    | PdfResult.exn e => "Error extracting text from PDF: " ++ e
  else if pyEndswith file_path ".docx" then
    match docxOpen file_path with
    | DocxResult.ok paras => paras.foldl (fun text para => text ++ (para ++ "\n")) ""
    | DocxResult.exn e => "Error extracting text from DOCX: " ++ e
  else ""

/-- Which of the three dispatch arms of `extract_text_from_file` a path takes. -/
inductive ExtractBranch where
  | pdf
  | docx
  | fallthrough
deriving DecidableEq

/-- The suffix dispatch of app.py lines 31 and 38, by itself. -/
def extractBranch (file_path : String) : ExtractBranch :=
  if pyEndswith file_path ".pdf" then ExtractBranch.pdf
  else if pyEndswith file_path ".docx" then ExtractBranch.docx
  else ExtractBranch.fallthrough

/-- Structural concatenation of a list of strings, in order. -/
def concatAll : List String → String
  | [] => ""
  | s :: rest => s ++ concatAll rest

/-- app.py lines 49-69: the analyzer prompt template, verbatim. -/
def RESUME_ANALYZER_PROMPT : String :=
  "\nYou are a senior business analyst and career coach. Your task is to analyze the following resume for a business analyst or data analyst role.\n\nBased on the provided resume text below, perform the following three tasks and present the output in a clear, easy-to-read Markdown format. Use bold headings and bullet points.\n\n1.  **Resume Score & Justification**\n    - Give a score from 1 to 100 based on the resume's effectiveness.\n    - Provide a brief, bulleted justification for this score.\n\n2.  **Tips for Improvement**\n    - Provide 3-5 concrete, actionable tips to improve the resume's clarity and impact.\n    - Focus on areas like structure, grammar, professional tone, and missing sections.\n\n3.  **Keyword and Quantifiable Impact Suggestions**\n    - **Missing Keywords:** Identify 3-5 crucial industry keywords (e.g., SQL, Tableau, Power BI, Python, R, predictive modeling, A/B testing, ETL, dashboarding) that are missing or underutilized.\n    - **Quantifiable Impact:** For each project or experience bullet point, suggest how to rephrase it to include quantifiable results or metrics. Provide specific, numbered examples for each section of the resume.\n\n**Resume Text:**\n{resume_text}\n\n"

/-- app.py lines 72-82 (through the single-page-fit instruction): the part of
the builder template before the user-information block.  The builder template
is written as four consecutive pieces (this one, the user-information block,
the YAML skeleton, the design block) whose concatenation is the app.py
literal verbatim; the split keeps concrete evaluation shallow. -/
def BUILDER_PROMPT_INTRO : String :=
  "\nYou are a professional YAML code agent specializing in generating a single, complete RenderCV configuration file for the 'sb2nov' theme.\n\nBased on the provided user information, you must generate a well-structured YAML code block. The code should start with `cv:` and end correctly, with no extra conversational text or code fences (like ```yaml).\n\n**YAML Code Generation Instructions:**\n- **Professional Summary:** Generate a concise, 2-3 sentence professional summary based on the provided user details, focusing on business/data analyst skills. This should be the very first section in `cv.sections`.\n- **Order of Sections:** The sections in the generated YAML must be in this exact order: `professional_summary`, `experience`, `education`, `projects`, `skills`, `interests`, `languages`.\n- **Formatting:** Use 2-space indentation. Ensure all lists (`-`) and key-value pairs are formatted correctly.\n- **Single Page Fit:** Include the provided `design` block with the reduced margins to ensure the CV fits on a single page.\n\n"

/-- app.py lines 83-96: the user-information block of the builder template,
with its eleven substitution fields, through the final output instruction. -/
def BUILDER_PROMPT_USER_INFO : String :=
  "**User Information to convert to YAML:**\nName: {name}\nEmail: {email}\nPhone: {phone}\nLinkedIn: {linkedin}\nGitHub: {github}\nEducation: {education}\nExperience: {experience}\nProjects: {projects}\nSkills: {skills}\nInterests: {interests}\nLanguages: {languages}\n\n**Output the complete YAML code block, and nothing else.**\n\n"

/-- app.py lines 98-122: the embedded YAML skeleton of the builder template
(the `cv:` block with its `sections:` in their fixed order), with the same
eleven substitution fields. -/
def BUILDER_YAML_SKELETON : String :=
  "cv:\n  name: {name}\n  location: Location\n  email: {email}\n  phone: {phone}\n  social_networks:\n    - network: LinkedIn\n      username: {linkedin}\n    - network: GitHub\n      username: {github}\n  sections:\n    professional_summary:\n      - '[Generate a 2-3 sentence professional summary based on the user data above. Start with \"I am a...\"]'\n    experience:\n      {experience}\n    education:\n      {education}\n    projects:\n      {projects}\n    skills:\n      {skills}\n    interests:\n      - bullet: {interests}\n    languages:\n      - bullet: {languages}\n"

/-- app.py lines 123-154: the fixed `design:` page-layout block that ends the
builder template. -/
def BUILDER_DESIGN_BLOCK : String :=
  "design:\n  theme: sb2nov\n  page:\n    size: us-letter\n    top_margin: 1cm\n    bottom_margin: 1cm\n    left_margin: 1cm\n    right_margin: 1cm\n    show_page_numbering: false\n    show_last_updated_date: false\n  header:\n    name_font_size: 20pt\n    vertical_space_between_name_and_connections: 0.4cm\n    vertical_space_between_connections_and_first_section: 0.4cm\n    alignment: center\n  section_titles:\n    font_size: 1.2em\n    line_thickness: 0.5pt\n    vertical_space_above: 0.3cm\n    vertical_space_below: 0.2cm\n  entries:\n    vertical_space_between_entries: 0.6em\n    short_second_row: true\n  highlights:\n    top_margin: 0.15cm\n    left_margin: 0.4cm\n    vertical_space_between_highlights: 0.2cm\n    horizontal_space_between_bullet_and_highlight: 0.5em\n  text:\n    font_size: 9pt\n    leading: 0.5em\n    "

/-- app.py lines 72-154: the builder prompt template, the concatenation of its
four consecutive pieces. -/
def RESUME_BUILDER_PROMPT : String :=
  BUILDER_PROMPT_INTRO
    ++ (BUILDER_PROMPT_USER_INFO ++ (BUILDER_YAML_SKELETON ++ BUILDER_DESIGN_BLOCK))

/-- The external world of the handlers: the two document libraries behind
`extract_text_from_file`, the two Gemini model tiers (app.py lines 22-23,
`Except.error` is a raised exception), and `markdown.markdown`. -/
structure Env where
  pdfOpen : String → PdfResult
  docxOpen : String → DocxResult
  llmPro : String → Except String String
  llmFlash : String → Except String String
  md : String → String

/-- A handler's observable HTTP outcome: a rendered template with an optional
payload, or a flash message (with its category) followed by a redirect. -/
inductive Response where
  | render (template : String) (payload : Option String)
  | redirectFlash (target message category : String)
deriving DecidableEq

/-- app.py lines 164-180: the value `str.format` receives for each of the
eleven builder keys, after `request.form.get` (absent field gives `None`,
rendered by `pyStr`). -/
def builderLookup (form : String → Option String) (k : String) : String :=
  if k = "name" then pyStr (form "name")
  else if k = "email" then pyStr (form "email")
  else if k = "phone" then pyStr (form "phone")
  else if k = "linkedin" then pyStr (form "linkedin")
  else if k = "github" then pyStr (form "github")
  else if k = "education" then pyStr (form "education")
  else if k = "experience" then pyStr (form "experience")
  else if k = "projects" then pyStr (form "projects")
  else if k = "skills" then pyStr (form "skills")
  else if k = "interests" then pyStr (form "interests")
  else if k = "languages" then pyStr (form "languages")
  else ""

/-- app.py lines 176-180: `RESUME_BUILDER_PROMPT.format(name=name, ...)`. -/
def builder_prompt (form : String → Option String) : String :=
  pyFormat RESUME_BUILDER_PROMPT (builderLookup form)

/-- app.py lines 161-190, POST arm: render the prompt, call the flash-tier
model; on success render builder.html with the returned text, on an exception
flash "Error generating resume: ..." with category danger and redirect. -/
def builder (env : Env) (form : String → Option String) : Response :=
  match env.llmFlash (builder_prompt form) with
  | Except.ok text => Response.render "builder.html" (some text)
  | Except.error e => Response.redirectFlash "/builder" ("Error generating resume: " ++ e) "danger"

/-- app.py line 207: `os.path.join(app.config['UPLOAD_FOLDER'], file.filename)`
with `UPLOAD_FOLDER = 'uploads'`. -/
def analyzer_filepath (filename : String) : String :=
  os_path_join "uploads" filename

/-- app.py line 210: the text extracted from the saved upload. -/
def analyzer_resume_text (env : Env) (filename : String) : String :=
  extract_text_from_file env.pdfOpen env.docxOpen (analyzer_filepath filename)

/-- app.py line 218: `RESUME_ANALYZER_PROMPT.format(resume_text=resume_text)`. -/
def analyzer_prompt (env : Env) (filename : String) : String :=
  pyFormat RESUME_ANALYZER_PROMPT
    (fun k => if k = "resume_text" then analyzer_resume_text env filename else "")

/-- app.py lines 192-230, POST arm.  The file system is a list of paths on
disk: `file.save` appends the joined path, `os.remove` filters it out; the
pair returned is (HTTP outcome, files on disk afterwards).  Control flow
follows the source: missing file part, empty filename and disallowed
extension each flash and redirect; otherwise save, extract, remove, test the
extracted text for the substring "Error", and only then call the pro-tier
model inside try/except. -/
def analyzer (env : Env) (hasFilePart : Bool) (filename : String)
    (fs : List String) : Response × List String :=
  if !hasFilePart then (Response.redirectFlash "/analyzer" "No file part" "danger", fs)
  else if filename = "" then (Response.redirectFlash "/analyzer" "No selected file" "danger", fs)
  else if allowed_file filename then
    let fs2 := List.filter (fun q => q != analyzer_filepath filename)
      (fs ++ [analyzer_filepath filename])
    if pyIn "Error".data (analyzer_resume_text env filename).data then
      (Response.redirectFlash "/analyzer"
        ("Error processing file: " ++ analyzer_resume_text env filename) "danger", fs2)
    else
      match env.llmPro (analyzer_prompt env filename) with
      | Except.ok text => (Response.render "analyzer.html" (some (env.md text)), fs2)
      | Except.error e =>
          (Response.redirectFlash "/analyzer" ("Error analyzing resume: " ++ e) "danger", fs2)
  else (Response.redirectFlash "/analyzer" "Invalid file type. Please upload a PDF or DOCX." "danger", fs)

/-- The concrete eleven-field form of claim C2. -/
def janeForm : String → Option String := fun k =>
  if k = "name" then some "Jane Doe"
  else if k = "email" then some "jane@x.com"
  else if k = "phone" then some "555-0100"
  else if k = "linkedin" then some "janedoe-li"
  else if k = "github" then some "janedoe-gh"
  else if k = "education" then some "BSc Example University"
  else if k = "experience" then some "Analyst at Acme"
  else if k = "projects" then some "Project Zeta"
  else if k = "skills" then some "SQL and Python"
  else if k = "interests" then some "chess"
  else if k = "languages" then some "English and French"
  else none


/-- The last `n` characters of `l`. -/
def lastChars (n : Nat) (l : List Char) : List Char :=
  List.drop (l.length - n) l

/-- One step of the field scanner underlying `pyFormatAux`: the state is
(inside-a-field flag, reversed key accumulator). -/
def scanStep : Bool × List Char → Char → Bool × List Char
  | (false, _), c => if c = lbrace then (true, []) else (false, [])
  | (true, acc), c => if c = rbrace then (false, []) else (true, c :: acc)

/-- The scanner state after consuming `l` from state `st`. -/
def scanEnd (st : Bool × List Char) (l : List Char) : Bool × List Char :=
  l.foldl scanStep st

/-- The eleven form field names read by the builder handler
(app.py lines 164-174). -/
def builderFields : List String :=
  ["name", "email", "phone", "linkedin", "github", "education", "experience",
   "projects", "skills", "interests", "languages"]

/-- The seven section keys of the embedded YAML skeleton, in the order the
builder template fixes (app.py lines 109-121), each with its trailing colon. -/
def sectionKeys : List String :=
  ["professional_summary:", "experience:", "education:", "projects:",
   "skills:", "interests:", "languages:"]

/-- `BUILDER_PROMPT_USER_INFO` rendered at the concrete "Jane Doe" form of
claim C2 (equal to it by computation). -/
def janeUserInfo : String :=
  "**User Information to convert to YAML:**\nName: Jane Doe\nEmail: jane@x.com\nPhone: 555-0100\nLinkedIn: janedoe-li\nGitHub: janedoe-gh\nEducation: BSc Example University\nExperience: Analyst at Acme\nProjects: Project Zeta\nSkills: SQL and Python\nInterests: chess\nLanguages: English and French\n\n**Output the complete YAML code block, and nothing else.**\n\n"

/-- `BUILDER_YAML_SKELETON` rendered at the concrete "Jane Doe" form of
claim C2 (equal to it by computation). -/
def janeSkel : String :=
  "cv:\n  name: Jane Doe\n  location: Location\n  email: jane@x.com\n  phone: 555-0100\n  social_networks:\n    - network: LinkedIn\n      username: janedoe-li\n    - network: GitHub\n      username: janedoe-gh\n  sections:\n    professional_summary:\n      - '[Generate a 2-3 sentence professional summary based on the user data above. Start with \"I am a...\"]'\n    experience:\n      Analyst at Acme\n    education:\n      BSc Example University\n    projects:\n      Project Zeta\n    skills:\n      SQL and Python\n    interests:\n      - bullet: chess\n    languages:\n      - bullet: English and French\n"

/-- `BUILDER_PROMPT_USER_INFO` rendered with every form field absent: each of
the eleven fields is interpolated as the string "None". -/
def noneUserInfo : String :=
  "**User Information to convert to YAML:**\nName: None\nEmail: None\nPhone: None\nLinkedIn: None\nGitHub: None\nEducation: None\nExperience: None\nProjects: None\nSkills: None\nInterests: None\nLanguages: None\n\n**Output the complete YAML code block, and nothing else.**\n\n"

/-- `BUILDER_YAML_SKELETON` rendered with every form field absent: each of
the eleven fields is interpolated as the string "None". -/
def noneSkel : String :=
  "cv:\n  name: None\n  location: Location\n  email: None\n  phone: None\n  social_networks:\n    - network: LinkedIn\n      username: None\n    - network: GitHub\n      username: None\n  sections:\n    professional_summary:\n      - '[Generate a 2-3 sentence professional summary based on the user data above. Start with \"I am a...\"]'\n    experience:\n      None\n    education:\n      None\n    projects:\n      None\n    skills:\n      None\n    interests:\n      - bullet: None\n    languages:\n      - bullet: None\n"

/-- A concrete environment for witnesses: the PDF library always raises, the
DOCX library yields the given paragraphs, both model tiers raise
"provider down", and the markdown renderer is the identity. -/
def envWithDocx (paras : List String) : Env :=
  Env.mk (fun _ => PdfResult.exn "unreadable") (fun _ => DocxResult.ok paras)
    (fun _ => Except.error "provider down") (fun _ => Except.error "provider down")
    (fun s => s)

theorem strMk_append (a b : List Char) : String.mk (a ++ b) = String.mk a ++ String.mk b := rfl

theorem str_append_assoc (a b c : String) : a ++ b ++ c = a ++ (b ++ c) := by
  obtain ⟨la⟩ := a
  obtain ⟨lb⟩ := b
  obtain ⟨lc⟩ := c
  show String.mk (la ++ lb ++ lc) = String.mk (la ++ (lb ++ lc))
  rw [List.append_assoc]

theorem bool_eq_of_iff {a b : Bool} (h : a = true ↔ b = true) : a = b := by
  cases a <;> cases b <;> simp_all

theorem isPrefixOf_length_le : ∀ {p l : List Char}, List.isPrefixOf p l = true → p.length ≤ l.length := by
  intro p
  induction p with
  | nil => intro l _; exact Nat.zero_le _
  | cons a p ih =>
    intro l h
    cases l with
    | nil => simp [List.isPrefixOf] at h
    | cons c l =>
      simp only [List.isPrefixOf, Bool.and_eq_true] at h
      simpa [List.length_cons, Nat.succ_le_succ_iff] using ih h.2

theorem isPrefixOf_eq_take : ∀ {p l : List Char}, List.isPrefixOf p l = true ↔ List.take p.length l = p := by
  intro p
  induction p with
  | nil => intro l; simp [List.isPrefixOf]
  | cons a p ih =>
    intro l
    cases l with
    | nil => simp [List.isPrefixOf]
    | cons c l =>
      simp only [List.isPrefixOf, Bool.and_eq_true, beq_iff_eq, List.length_cons, List.take,
        List.cons.injEq, ih]
      constructor
      · rintro ⟨rfl, h⟩; exact ⟨rfl, h⟩
      · rintro ⟨rfl, h⟩; exact ⟨rfl, h⟩

theorem isPrefixOf_self_append (p m : List Char) : List.isPrefixOf p (p ++ m) = true := by
  induction p with
  | nil => simp [List.isPrefixOf]
  | cons a p ih => simpa [List.isPrefixOf] using ih

theorem isPrefixOf_append_of_le : ∀ {p x : List Char} (y : List Char), p.length ≤ x.length →
    List.isPrefixOf p (x ++ y) = List.isPrefixOf p x := by
  intro p
  induction p with
  | nil => intro x y _; simp [List.isPrefixOf]
  | cons a p ih =>
    intro x y h
    cases x with
    | nil => simp at h
    | cons c x =>
      simp only [List.cons_append, List.isPrefixOf, List.append_eq]
      rw [ih y (by simpa [List.length_cons, Nat.succ_le_succ_iff] using h)]

theorem isPrefixOf_take_window {p x y : List Char} {m : Nat} (h : p.length ≤ x.length + m) :
    List.isPrefixOf p (x ++ y) = List.isPrefixOf p (x ++ List.take m y) := by
  apply bool_eq_of_iff
  rw [isPrefixOf_eq_take, isPrefixOf_eq_take]
  have hle : p.length - x.length ≤ m := by omega
  have htake : List.take p.length (x ++ y) = List.take p.length (x ++ List.take m y) := by
    rw [List.take_append_eq_append_take, List.take_append_eq_append_take, List.take_take,
      inf_eq_left.mpr hle]
  rw [htake]

theorem pyIn_nil_pat : ∀ (l : List Char), pyIn [] l = true := by
  intro l
  cases l <;> simp [pyIn, List.isPrefixOf, List.isEmpty]

theorem pyIn_head_false {p : List Char} {c : Char} {l : List Char} (h : pyIn p (c :: l) = false) :
    List.isPrefixOf p (c :: l) = false ∧ pyIn p l = false := by
  simpa [pyIn] using h

theorem pyIn_of_suffix {p l1 l2 : List Char} (h : l1 <:+ l2) (hp : pyIn p l1 = true) :
    pyIn p l2 = true := by
  obtain ⟨w, rfl⟩ := h
  induction w with
  | nil => simpa using hp
  | cons a w ih =>
    simp only [List.cons_append, pyIn, List.append_eq]
    rw [ih]
    simp

theorem lastChars_cons_suffix (n : Nat) (c : Char) (rest : List Char) :
    lastChars n rest <:+ lastChars n (c :: rest) := by
  unfold lastChars
  rcases le_or_lt (rest.length + 1) n with h | h
  · rw [List.length_cons, Nat.sub_eq_zero_of_le h, Nat.sub_eq_zero_of_le (Nat.le_of_succ_le h)]
    exact ⟨[c], rfl⟩
  · have hn : n ≤ rest.length := Nat.lt_succ_iff.mp h
    rw [List.length_cons]
    have heq : rest.length + 1 - n = (rest.length - n) + 1 := by omega
    rw [heq, List.drop_succ_cons]

theorem lastChars_of_le {n : Nat} {l : List Char} (h : l.length ≤ n) : lastChars n l = l := by
  unfold lastChars
  rw [Nat.sub_eq_zero_of_le h, List.drop_zero]

theorem suffix_append_right {l1 l2 t : List Char} (h : l1 <:+ l2) : l1 ++ t <:+ l2 ++ t := by
  obtain ⟨w, rfl⟩ := h
  exact ⟨w, (List.append_assoc w l1 t).symm⟩

theorem countOccs_append (p : List Char) : ∀ (l1 l2 : List Char),
    pyIn p (lastChars (p.length - 1) l1 ++ List.take (p.length - 1) l2) = false →
    countOccs p (l1 ++ l2) = countOccs p l1 + countOccs p l2 := by
  intro l1
  induction l1 with
  | nil => intro l2 _; simp [countOccs]
  | cons c rest ih =>
    intro l2 h
    have hwin : pyIn p (lastChars (p.length - 1) rest ++ List.take (p.length - 1) l2) = false := by
      cases hb : pyIn p (lastChars (p.length - 1) rest ++ List.take (p.length - 1) l2) with
      | false => rfl
      | true =>
        have hup := pyIn_of_suffix (suffix_append_right (lastChars_cons_suffix (p.length - 1) c rest)) hb
        rw [h] at hup
        exact Bool.noConfusion hup
    have hstep : List.isPrefixOf p (c :: (rest ++ l2)) = List.isPrefixOf p (c :: rest) := by
      rcases le_or_lt p.length (c :: rest).length with hle | hlt
      · simpa using isPrefixOf_append_of_le (x := c :: rest) l2 hle
      · have hr : List.isPrefixOf p (c :: rest) = false := by
          cases hb : List.isPrefixOf p (c :: rest) with
          | false => rfl
          | true => exact absurd (isPrefixOf_length_le hb) (Nat.not_le_of_lt hlt)
        rw [hr]
        cases hb : List.isPrefixOf p (c :: (rest ++ l2)) with
        | false => rfl
        | true =>
          have hxlen : (c :: rest).length ≤ p.length - 1 := by
            have := hlt
            simp only [List.length_cons] at this ⊢
            omega
          have hwind := isPrefixOf_take_window (p := p) (x := c :: rest) (y := l2)
            (m := p.length - 1) (by simp only [List.length_cons] at hxlen ⊢; omega)
          rw [lastChars_of_le hxlen] at h
          have hh := (pyIn_head_false (by simpa using h)).1
          simp only [List.cons_append] at hwind
          rw [hb] at hwind
          exact Bool.noConfusion (hwind.trans hh)
    simp only [List.cons_append, countOccs, List.append_eq]
    simp only [hstep]
    rw [ih l2 hwin]
    omega

theorem pyIn_append (p : List Char) : ∀ (l1 l2 : List Char),
    pyIn p (lastChars (p.length - 1) l1 ++ List.take (p.length - 1) l2) = false →
    pyIn p (l1 ++ l2) = (pyIn p l1 || pyIn p l2) := by
  intro l1
  induction l1 with
  | nil =>
    intro l2 h
    cases p with
    | nil => rw [pyIn_nil_pat] at h; exact Bool.noConfusion h
    | cons a p => simp [pyIn, List.isEmpty]
  | cons c rest ih =>
    intro l2 h
    have hwin : pyIn p (lastChars (p.length - 1) rest ++ List.take (p.length - 1) l2) = false := by
      cases hb : pyIn p (lastChars (p.length - 1) rest ++ List.take (p.length - 1) l2) with
      | false => rfl
      | true =>
        have hup := pyIn_of_suffix (suffix_append_right (lastChars_cons_suffix (p.length - 1) c rest)) hb
        rw [h] at hup
        exact Bool.noConfusion hup
    have hstep : List.isPrefixOf p (c :: (rest ++ l2)) = List.isPrefixOf p (c :: rest) := by
      rcases le_or_lt p.length (c :: rest).length with hle | hlt
      · simpa using isPrefixOf_append_of_le (x := c :: rest) l2 hle
      · have hr : List.isPrefixOf p (c :: rest) = false := by
          cases hb : List.isPrefixOf p (c :: rest) with
          | false => rfl
          | true => exact absurd (isPrefixOf_length_le hb) (Nat.not_le_of_lt hlt)
        rw [hr]
        cases hb : List.isPrefixOf p (c :: (rest ++ l2)) with
        | false => rfl
        | true =>
          have hxlen : (c :: rest).length ≤ p.length - 1 := by
            simp only [List.length_cons] at hlt ⊢
            omega
          have hwind := isPrefixOf_take_window (p := p) (x := c :: rest) (y := l2)
            (m := p.length - 1) (by simp only [List.length_cons] at hxlen ⊢; omega)
          rw [lastChars_of_le hxlen] at h
          have hh := (pyIn_head_false (by simpa using h)).1
          simp only [List.cons_append] at hwind
          rw [hb] at hwind
          exact Bool.noConfusion (hwind.trans hh)
    simp only [List.cons_append, pyIn, List.append_eq]
    simp only [hstep]
    rw [ih l2 hwin]
    cases List.isPrefixOf p (c :: rest) <;> cases pyIn p rest <;> cases pyIn p l2 <;> rfl

theorem pyFormatAux_append (lookup : String → String) : ∀ (t1 : List Char) (b : Bool)
    (acc t2 : List Char), scanEnd (b, acc) t1 = (false, []) →
    pyFormatAux lookup b acc (t1 ++ t2)
      = pyFormatAux lookup b acc t1 ++ pyFormatAux lookup false [] t2 := by
  intro t1
  induction t1 with
  | nil =>
    intro b acc t2 h
    simp only [scanEnd, List.foldl, Prod.mk.injEq] at h
    obtain ⟨hb, hacc⟩ := h
    subst hb
    subst hacc
    simp [pyFormatAux]
  | cons ch t1 ih =>
    intro b acc t2 h
    have hsc : scanEnd (scanStep (b, acc) ch) t1 = (false, []) := by
      simpa [scanEnd, List.foldl] using h
    cases b with
    | false =>
      by_cases hc : ch = lbrace
      · subst hc
        have hst : scanStep (false, acc) lbrace = (true, ([] : List Char)) := by
          simp [scanStep]
        rw [hst] at hsc
        simp only [List.cons_append, pyFormatAux, eq_self_iff_true, if_true, List.append_eq]
        exact ih true [] t2 hsc
      · have hst : scanStep (false, acc) ch = (false, ([] : List Char)) := by
          simp [scanStep, hc]
        rw [hst] at hsc
        simp only [List.cons_append, pyFormatAux, if_neg hc, List.append_eq]
        rw [ih false [] t2 hsc]
    | true =>
      by_cases hc : ch = rbrace
      · subst hc
        have hst : scanStep (true, acc) rbrace = (false, ([] : List Char)) := by
          simp [scanStep]
        rw [hst] at hsc
        simp only [List.cons_append, pyFormatAux, eq_self_iff_true, if_true, List.append_eq]
        rw [ih false [] t2 hsc, List.append_assoc]
      · have hst : scanStep (true, acc) ch = (true, ch :: acc) := by
          simp [scanStep, hc]
        rw [hst] at hsc
        simp only [List.cons_append, pyFormatAux, if_neg hc, List.append_eq]
        exact ih true (ch :: acc) t2 hsc

theorem pyFormat_append (t1 t2 : String) (lookup : String → String)
    (h : scanEnd (false, []) t1.data = (false, [])) :
    pyFormat (t1 ++ t2) lookup = pyFormat t1 lookup ++ pyFormat t2 lookup := by
  unfold pyFormat
  rw [String.data_append, pyFormatAux_append lookup t1.data false [] t2.data h, strMk_append]

theorem pyFormatAux_id (lookup : String → String) : ∀ (t : List Char),
    lbrace ∉ t → pyFormatAux lookup false [] t = t := by
  intro t
  induction t with
  | nil => intro _; rfl
  | cons c rest ih =>
    intro h
    simp only [List.mem_cons, not_or] at h
    obtain ⟨h1, h2⟩ := h
    have hcne : c ≠ lbrace := fun hq => h1 hq.symm
    simp only [pyFormatAux, if_neg hcne]
    rw [ih h2]

theorem pyFormat_id (t : String) (lookup : String → String)
    (h : lbrace ∉ t.data) : pyFormat t lookup = t := by
  unfold pyFormat
  rw [pyFormatAux_id lookup t.data h]

theorem countOccs_four (p a b c d : List Char)
    (h1 : pyIn p (lastChars (p.length - 1) a ++ List.take (p.length - 1) (b ++ (c ++ d))) = false)
    (h2 : pyIn p (lastChars (p.length - 1) b ++ List.take (p.length - 1) (c ++ d)) = false)
    (h3 : pyIn p (lastChars (p.length - 1) c ++ List.take (p.length - 1) d) = false) :
    countOccs p (a ++ (b ++ (c ++ d)))
      = countOccs p a + (countOccs p b + (countOccs p c + countOccs p d)) := by
  rw [countOccs_append p a _ h1, countOccs_append p b _ h2, countOccs_append p c _ h3]

theorem pyIn_four (p a b c d : List Char)
    (h1 : pyIn p (lastChars (p.length - 1) a ++ List.take (p.length - 1) (b ++ (c ++ d))) = false)
    (h2 : pyIn p (lastChars (p.length - 1) b ++ List.take (p.length - 1) (c ++ d)) = false)
    (h3 : pyIn p (lastChars (p.length - 1) c ++ List.take (p.length - 1) d) = false) :
    pyIn p (a ++ (b ++ (c ++ d)))
      = (pyIn p a || (pyIn p b || (pyIn p c || pyIn p d))) := by
  rw [pyIn_append p a _ h1, pyIn_append p b _ h2, pyIn_append p c _ h3]

theorem builder_render_eq (form : String → Option String) :
    pyFormat RESUME_BUILDER_PROMPT (builderLookup form)
      = BUILDER_PROMPT_INTRO
          ++ (pyFormat BUILDER_PROMPT_USER_INFO (builderLookup form)
            ++ (pyFormat BUILDER_YAML_SKELETON (builderLookup form) ++ BUILDER_DESIGN_BLOCK)) := by
  unfold RESUME_BUILDER_PROMPT
  rw [pyFormat_append _ _ _ (by decide), pyFormat_append _ _ _ (by decide),
    pyFormat_append _ _ _ (by decide), pyFormat_id BUILDER_PROMPT_INTRO _ (by decide),
    pyFormat_id BUILDER_DESIGN_BLOCK _ (by decide)]

theorem jane_user_eq : pyFormat BUILDER_PROMPT_USER_INFO (builderLookup janeForm) = janeUserInfo := by
  decide

theorem jane_skel_eq : pyFormat BUILDER_YAML_SKELETON (builderLookup janeForm) = janeSkel := by
  decide

theorem none_user_eq : pyFormat BUILDER_PROMPT_USER_INFO (builderLookup (fun _ => none)) = noneUserInfo := by
  decide

theorem none_skel_eq : pyFormat BUILDER_YAML_SKELETON (builderLookup (fun _ => none)) = noneSkel := by
  decide

theorem jane_data_eq : (pyFormat RESUME_BUILDER_PROMPT (builderLookup janeForm)).data
    = BUILDER_PROMPT_INTRO.data
      ++ (janeUserInfo.data ++ (janeSkel.data ++ BUILDER_DESIGN_BLOCK.data)) := by
  rw [builder_render_eq, jane_user_eq, jane_skel_eq, String.data_append, String.data_append,
    String.data_append]

theorem none_data_eq : (pyFormat RESUME_BUILDER_PROMPT (builderLookup (fun _ => none))).data
    = BUILDER_PROMPT_INTRO.data
      ++ (noneUserInfo.data ++ (noneSkel.data ++ BUILDER_DESIGN_BLOCK.data)) := by
  rw [builder_render_eq, none_user_eq, none_skel_eq, String.data_append, String.data_append,
    String.data_append]

theorem countOccs_jane (p : List Char)
    (h1 : pyIn p (lastChars (p.length - 1) BUILDER_PROMPT_INTRO.data
      ++ List.take (p.length - 1)
        (janeUserInfo.data ++ (janeSkel.data ++ BUILDER_DESIGN_BLOCK.data))) = false)
    (h2 : pyIn p (lastChars (p.length - 1) janeUserInfo.data
      ++ List.take (p.length - 1) (janeSkel.data ++ BUILDER_DESIGN_BLOCK.data)) = false)
    (h3 : pyIn p (lastChars (p.length - 1) janeSkel.data
      ++ List.take (p.length - 1) BUILDER_DESIGN_BLOCK.data) = false) :
    countOccs p (pyFormat RESUME_BUILDER_PROMPT (builderLookup janeForm)).data
      = countOccs p BUILDER_PROMPT_INTRO.data
        + (countOccs p janeUserInfo.data
          + (countOccs p janeSkel.data + countOccs p BUILDER_DESIGN_BLOCK.data)) := by
  rw [jane_data_eq]
  exact countOccs_four p _ _ _ _ h1 h2 h3

theorem countOccs_noneForm (p : List Char)
    (h1 : pyIn p (lastChars (p.length - 1) BUILDER_PROMPT_INTRO.data
      ++ List.take (p.length - 1)
        (noneUserInfo.data ++ (noneSkel.data ++ BUILDER_DESIGN_BLOCK.data))) = false)
    (h2 : pyIn p (lastChars (p.length - 1) noneUserInfo.data
      ++ List.take (p.length - 1) (noneSkel.data ++ BUILDER_DESIGN_BLOCK.data)) = false)
    (h3 : pyIn p (lastChars (p.length - 1) noneSkel.data
      ++ List.take (p.length - 1) BUILDER_DESIGN_BLOCK.data) = false) :
    countOccs p (pyFormat RESUME_BUILDER_PROMPT (builderLookup (fun _ => none))).data
      = countOccs p BUILDER_PROMPT_INTRO.data
        + (countOccs p noneUserInfo.data
          + (countOccs p noneSkel.data + countOccs p BUILDER_DESIGN_BLOCK.data)) := by
  rw [none_data_eq]
  exact countOccs_four p _ _ _ _ h1 h2 h3

theorem pyIn_noneForm (p : List Char)
    (h1 : pyIn p (lastChars (p.length - 1) BUILDER_PROMPT_INTRO.data
      ++ List.take (p.length - 1)
        (noneUserInfo.data ++ (noneSkel.data ++ BUILDER_DESIGN_BLOCK.data))) = false)
    (h2 : pyIn p (lastChars (p.length - 1) noneUserInfo.data
      ++ List.take (p.length - 1) (noneSkel.data ++ BUILDER_DESIGN_BLOCK.data)) = false)
    (h3 : pyIn p (lastChars (p.length - 1) noneSkel.data
      ++ List.take (p.length - 1) BUILDER_DESIGN_BLOCK.data) = false) :
    pyIn p (pyFormat RESUME_BUILDER_PROMPT (builderLookup (fun _ => none))).data
      = (pyIn p BUILDER_PROMPT_INTRO.data
        || (pyIn p noneUserInfo.data
          || (pyIn p noneSkel.data || pyIn p BUILDER_DESIGN_BLOCK.data))) := by
  rw [none_data_eq]
  exact pyIn_four p _ _ _ _ h1 h2 h3

theorem dropWhile_head_false (p : Char → Bool) : ∀ (l : List Char) (d : Char) (t : List Char),
    l.dropWhile p = d :: t → p d = false := by
  intro l
  induction l with
  | nil => intro d t h; simp [List.dropWhile] at h
  | cons a l ih =>
    intro d t h
    by_cases ha : p a
    · rw [List.dropWhile_cons_of_pos ha] at h
      exact ih d t h
    · rw [List.dropWhile_cons_of_neg ha] at h
      have had : a = d := (List.cons.injEq a l d t).mp h |>.1
      subst had
      simpa using ha

theorem takeWhile_append_stop (p : Char → Bool) : ∀ (xs : List Char), (∀ x ∈ xs, p x = true) →
    ∀ (y : Char) (ys : List Char), p y = false →
    List.takeWhile p (xs ++ y :: ys) = xs := by
  intro xs
  induction xs with
  | nil =>
    intro _ y ys hy
    simp [List.takeWhile, hy]
  | cons a xs ih =>
    intro h y ys hy
    have ha : p a = true := h a (List.mem_cons_self a xs)
    simp only [List.cons_append, List.takeWhile_cons_of_pos ha]
    rw [ih (fun x hx => h x (List.mem_cons_of_mem a hx)) y ys hy]

/-- C1: for every filename `f`, `allowed_file f` is true exactly when `f`
splits as `a ++ "." ++ b` with no further '.' in `b` (so `b` is the suffix
after the last '.') and the lowercased `b` is "pdf" or "docx"; in particular
`allowed_file "resume"` is false, `allowed_file "resume.PDF"` is true, and
`allowed_file "resume.pdf.exe"` is false (app.py lines 26-27). -/
theorem c1_allowed_file_characterization :
    (∀ f : String, allowed_file f = true ↔
      ∃ a b : String, f = a ++ "." ++ b ∧ '.' ∉ b.data
        ∧ (pyLower b = "pdf" ∨ pyLower b = "docx"))
    ∧ allowed_file "resume" = false
    ∧ allowed_file "resume.PDF" = true
    ∧ allowed_file "resume.pdf.exe" = false := by
  refine ⟨?_, by decide, by decide, by decide⟩
  intro f
  obtain ⟨fl⟩ := f
  constructor
  · intro h
    unfold allowed_file at h
    rw [Bool.and_eq_true, Bool.or_eq_true, beq_iff_eq, beq_iff_eq] at h
    obtain ⟨hcont, hx⟩ := h
    have hmem : '.' ∈ fl := List.elem_iff.mp hcont
    have hd : '.' ∈ fl.reverse := List.mem_reverse.mpr hmem
    have hne : fl.reverse.dropWhile (fun c => c != '.') ≠ [] := by
      intro hnil
      have hp := (List.dropWhile_eq_nil_iff).mp hnil '.' hd
      simp at hp
    cases hdrop : fl.reverse.dropWhile (fun c => c != '.') with
    | nil => exact absurd hdrop hne
    | cons d t =>
      have hdfalse := dropWhile_head_false (fun c => c != '.') fl.reverse d t hdrop
      have hd_eq : d = '.' := by simpa using hdfalse
      subst hd_eq
      have hsplit : fl.reverse.takeWhile (fun c => c != '.') ++ '.' :: t = fl.reverse := by
        rw [← hdrop]
        exact List.takeWhile_append_dropWhile (fun c => c != '.') fl.reverse
      refine ⟨String.mk t.reverse,
        String.mk ((fl.reverse.takeWhile (fun c => c != '.')).reverse), ?_, ?_, ?_⟩
      · show String.mk fl
          = String.mk ((t.reverse ++ ['.']) ++ (fl.reverse.takeWhile (fun c => c != '.')).reverse)
        congr 1
        have h2 := congrArg List.reverse hsplit
        rw [List.reverse_append, List.reverse_cons, List.reverse_reverse] at h2
        exact h2.symm
      · intro hbad
        rw [List.mem_reverse] at hbad
        have := List.mem_takeWhile_imp hbad
        simp at this
      · exact hx
  · rintro ⟨a, b, hf, hb, hx⟩
    obtain ⟨al⟩ := a
    obtain ⟨bl⟩ := b
    have hfl : fl = (al ++ ['.']) ++ bl := by
      have := congrArg String.data hf
      simpa using this
    subst hfl
    unfold allowed_file
    rw [Bool.and_eq_true, Bool.or_eq_true, beq_iff_eq, beq_iff_eq]
    constructor
    · exact List.elem_iff.mpr (by simp)
    · have hsfx : suffixAfterLastDot ((al ++ ['.']) ++ bl) = bl := by
        unfold suffixAfterLastDot
        rw [List.reverse_append, List.reverse_append]
        have harr : (['.'] : List Char).reverse ++ al.reverse = '.' :: al.reverse := by simp
        rw [harr]
        rw [takeWhile_append_stop _ bl.reverse ?hall '.' al.reverse (by simp)]
        · exact List.reverse_reverse bl
        case hall =>
          intro x hxm
          rw [List.mem_reverse] at hxm
          have : x ≠ '.' := fun he => hb (he ▸ hxm)
          simpa using this
      rw [hsfx]
      exact hx

/-- C9 as claimed is false: a filename with no extension is rejected, not
accepted.  Counterexample: `allowed_file "resume" = false` (the claim asserts
it is accepted). -/
theorem c9_counterexample : ¬ (allowed_file "resume" = true) := by decide

/-- C9 amended: a filename with no '.' at all, such as "resume", is rejected
by the validator, while an uppercase extension such as "resume.PDF" is
accepted (the extension comparison is case-insensitive); a lowercase
"resume.pdf" is accepted too (app.py lines 26-27). -/
theorem c9_amended :
    allowed_file "resume" = false
    ∧ allowed_file "resume.PDF" = true
    ∧ allowed_file "resume.pdf" = true := by
  refine ⟨by decide, by decide, by decide⟩

theorem prefix_head_eq {a b : Char} {l1 l2 r : List Char}
    (h1 : List.isPrefixOf (a :: l1) r = true) (h2 : List.isPrefixOf (b :: l2) r = true) :
    a = b := by
  cases r with
  | nil => simp [List.isPrefixOf] at h1
  | cons c t =>
    simp only [List.isPrefixOf, Bool.and_eq_true, beq_iff_eq] at h1 h2
    rw [h1.1, h2.1]

theorem no_pdf_of_docx {p : String} (h : pyEndswith p ".docx" = true) :
    pyEndswith p ".pdf" = false := by
  cases hb : pyEndswith p ".pdf" with
  | false => rfl
  | true =>
    unfold pyEndswith at h hb
    have := prefix_head_eq (show List.isPrefixOf ('x' :: "cod.".data) p.data.reverse = true from h)
      (show List.isPrefixOf ('f' :: "dp.".data) p.data.reverse = true from hb)
    simp at this

theorem isPrefixOf_append_left : ∀ {p x : List Char} (y : List Char),
    List.isPrefixOf p x = true → List.isPrefixOf p (x ++ y) = true := by
  intro p
  induction p with
  | nil => intro x y _; simp [List.isPrefixOf]
  | cons a p ih =>
    intro x y h
    cases x with
    | nil => simp [List.isPrefixOf] at h
    | cons c x =>
      simp only [List.isPrefixOf, Bool.and_eq_true] at h
      simp only [List.cons_append, List.isPrefixOf, Bool.and_eq_true, List.append_eq]
      exact ⟨h.1, ih y h.2⟩

theorem pyEndswith_append (x f ext : String) (h : pyEndswith f ext = true) :
    pyEndswith (x ++ f) ext = true := by
  unfold pyEndswith at h ⊢
  rw [String.data_append, List.reverse_append]
  exact isPrefixOf_append_left _ h

theorem foldl_concatAll {α : Type} (f : α → String) : ∀ (l : List α) (a : String),
    List.foldl (fun t x => t ++ f x) a l = a ++ concatAll (l.map f) := by
  intro l
  induction l with
  | nil =>
    intro a
    show a = a ++ ""
    obtain ⟨la⟩ := a
    show String.mk la = String.mk (la ++ [])
    rw [List.append_nil]
  | cons x xs ih =>
    intro a
    show List.foldl (fun t x => t ++ f x) (a ++ f x) xs = a ++ (f x ++ concatAll (xs.map f))
    rw [ih (a ++ f x), str_append_assoc]

/-- C5: whenever the PDF (resp. DOCX) library raises on a path ending in
".pdf" (resp. ".docx"), `extract_text_from_file` returns the string
"Error extracting text from PDF: " (resp. DOCX) followed by the exception
message, so the result begins with the error prefix matching the input type;
the exception never propagates (the function is total and returns a string)
(app.py lines 29-45). -/
theorem c5_extract_error_sentinel :
    (∀ (pdfO : String → PdfResult) (docxO : String → DocxResult) (p e : String),
      pyEndswith p ".pdf" = true → pdfO p = PdfResult.exn e →
        extract_text_from_file pdfO docxO p = "Error extracting text from PDF: " ++ e
        ∧ pyStartswith (extract_text_from_file pdfO docxO p)
            "Error extracting text from PDF: " = true)
    ∧ (∀ (pdfO : String → PdfResult) (docxO : String → DocxResult) (p e : String),
      pyEndswith p ".docx" = true → docxO p = DocxResult.exn e →
        extract_text_from_file pdfO docxO p = "Error extracting text from DOCX: " ++ e
        ∧ pyStartswith (extract_text_from_file pdfO docxO p)
            "Error extracting text from DOCX: " = true) := by
  constructor
  · intro pdfO docxO p e hp he
    have hval : extract_text_from_file pdfO docxO p = "Error extracting text from PDF: " ++ e := by
      unfold extract_text_from_file
      rw [if_pos hp, he]
    refine ⟨hval, ?_⟩
    rw [hval]
    unfold pyStartswith
    rw [String.data_append]
    exact isPrefixOf_self_append _ _
  · intro pdfO docxO p e hp he
    have hnp : pyEndswith p ".pdf" = false := no_pdf_of_docx hp
    have hval : extract_text_from_file pdfO docxO p = "Error extracting text from DOCX: " ++ e := by
      unfold extract_text_from_file
      rw [if_neg (by simp [hnp]), if_pos hp, he]
    refine ⟨hval, ?_⟩
    rw [hval]
    unfold pyStartswith
    rw [String.data_append]
    exact isPrefixOf_self_append _ _

/-- Witness for C5 at concrete failing libraries and paths. -/
theorem c5_extract_error_sentinel_witness :
    extract_text_from_file (fun _ => PdfResult.exn "boom") (fun _ => DocxResult.exn "crash")
        "uploads/a.pdf" = "Error extracting text from PDF: " ++ "boom"
    ∧ extract_text_from_file (fun _ => PdfResult.exn "boom") (fun _ => DocxResult.exn "crash")
        "uploads/b.docx" = "Error extracting text from DOCX: " ++ "crash" :=
  ⟨(c5_extract_error_sentinel.1 (fun _ => PdfResult.exn "boom") (fun _ => DocxResult.exn "crash")
      "uploads/a.pdf" "boom" (by decide) rfl).1,
   (c5_extract_error_sentinel.2 (fun _ => PdfResult.exn "boom") (fun _ => DocxResult.exn "crash")
      "uploads/b.docx" "crash" (by decide) rfl).1⟩

/-- C6: on a readable file, the PDF branch returns the concatenation of the
page texts in page order with `None` pages contributing "", and the DOCX
branch returns the concatenation in paragraph order of each paragraph's text
followed by a newline (app.py lines 31-42). -/
theorem c6_extract_concatenation :
    (∀ (pdfO : String → PdfResult) (docxO : String → DocxResult) (p : String)
      (pages : List (Option String)),
      pyEndswith p ".pdf" = true → pdfO p = PdfResult.ok pages →
        extract_text_from_file pdfO docxO p = concatAll (pages.map pyOrEmpty))
    ∧ (∀ (pdfO : String → PdfResult) (docxO : String → DocxResult) (p : String)
      (paras : List String),
      pyEndswith p ".docx" = true → docxO p = DocxResult.ok paras →
        extract_text_from_file pdfO docxO p = concatAll (paras.map (fun s => s ++ "\n"))) := by
  constructor
  · intro pdfO docxO p pages hp ho
    unfold extract_text_from_file
    rw [if_pos hp, ho]
    show List.foldl (fun text page => text ++ pyOrEmpty page) "" pages
      = concatAll (pages.map pyOrEmpty)
    rw [foldl_concatAll pyOrEmpty pages ""]
    rfl
  · intro pdfO docxO p paras hp ho
    have hnp : pyEndswith p ".pdf" = false := no_pdf_of_docx hp
    unfold extract_text_from_file
    rw [if_neg (by simp [hnp]), if_pos hp, ho]
    show List.foldl (fun text para => text ++ (para ++ "\n")) "" paras
      = concatAll (paras.map (fun s => s ++ "\n"))
    rw [foldl_concatAll (fun s => s ++ "\n") paras ""]
    rfl

/-- Witness for C6 at a concrete three-page PDF (one page with missing text)
and a concrete two-paragraph DOCX. -/
theorem c6_extract_concatenation_witness :
    extract_text_from_file (fun _ => PdfResult.ok [some "Page one. ", none, some "Page two."])
        (fun _ => DocxResult.exn "unused") "uploads/a.pdf"
      = concatAll ([some "Page one. ", none, some "Page two."].map pyOrEmpty)
    ∧ extract_text_from_file (fun _ => PdfResult.exn "unused")
        (fun _ => DocxResult.ok ["First paragraph", "Second paragraph"]) "uploads/b.docx"
      = concatAll (["First paragraph", "Second paragraph"].map (fun s => s ++ "\n")) :=
  ⟨c6_extract_concatenation.1 (fun _ => PdfResult.ok [some "Page one. ", none, some "Page two."])
      (fun _ => DocxResult.exn "unused") "uploads/a.pdf" [some "Page one. ", none, some "Page two."]
      (by decide) rfl,
   c6_extract_concatenation.2 (fun _ => PdfResult.exn "unused")
      (fun _ => DocxResult.ok ["First paragraph", "Second paragraph"]) "uploads/b.docx"
      ["First paragraph", "Second paragraph"] (by decide) rfl⟩

/-- C7 as claimed is false: "resume.PDF" is accepted by the validator (the
check lowercases the extension) but `extract_text_from_file` dispatches on
the case-sensitive literal suffixes ".pdf"/".docx", so the joined path
"uploads/resume.PDF" takes the silent fall-through and yields "" without the
libraries ever being consulted. -/
theorem c7_counterexample :
    allowed_file "resume.PDF" = true
    ∧ extractBranch (os_path_join "uploads" "resume.PDF") = ExtractBranch.fallthrough
    ∧ extract_text_from_file (fun _ => PdfResult.ok [some "PDF TEXT"])
        (fun _ => DocxResult.ok ["DOCX TEXT"]) (os_path_join "uploads" "resume.PDF") = "" := by
  refine ⟨by decide, by decide, by decide⟩

/-- C7 amended: the fall-through is unreachable only for accepted filenames
whose extension is literally lowercase: for every filename accepted by
`allowed_file` that ends with ".pdf" or ".docx" case-sensitively, extraction
of the joined upload path takes the PDF or DOCX branch.  (Filenames accepted
through the case-insensitive comparison alone, such as "resume.PDF", reach
the fall-through, as the counterexample shows.) -/
theorem c7_amended : ∀ f : String, allowed_file f = true →
    (pyEndswith f ".pdf" || pyEndswith f ".docx") = true →
    extractBranch (os_path_join "uploads" f) ≠ ExtractBranch.fallthrough := by
  intro f _ hsfx
  have hjoin : ∀ ext : String, pyEndswith f ext = true →
      pyEndswith (os_path_join "uploads" f) ext = true := by
    intro ext he
    unfold os_path_join
    by_cases hs : pyStartswith f "/" = true
    · rw [if_pos hs]
      exact he
    · rw [if_neg hs, if_neg (by decide)]
      exact pyEndswith_append ("uploads" ++ "/") f ext he
  rw [Bool.or_eq_true] at hsfx
  rcases hsfx with hpdf | hdocx
  · have hj := hjoin ".pdf" hpdf
    simp [extractBranch, hj]
  · have hj := hjoin ".docx" hdocx
    cases hp : pyEndswith (os_path_join "uploads" f) ".pdf" with
    | true => simp [extractBranch, hp]
    | false => simp [extractBranch, hp, hj]

/-- Witness for C7 (amended) at the accepted lowercase filename "resume.pdf". -/
theorem c7_amended_witness :
    extractBranch (os_path_join "uploads" "resume.pdf") ≠ ExtractBranch.fallthrough :=
  c7_amended "resume.pdf" (by decide) (by decide)

theorem analyzer_error_branch (env : Env) (filename : String) (fs : List String)
    (h1 : filename ≠ "") (h2 : allowed_file filename = true)
    (hErr : pyIn "Error".data (analyzer_resume_text env filename).data = true) :
    analyzer env true filename fs
      = (Response.redirectFlash "/analyzer"
          ("Error processing file: " ++ analyzer_resume_text env filename) "danger",
         List.filter (fun q => q != analyzer_filepath filename)
           (fs ++ [analyzer_filepath filename])) := by
  simp [analyzer, h1, h2, hErr]

/-- C3: in the analyzer POST handler, once the upload has been saved and
extracted, the extraction-failure path (flash "Error processing file: ..."
with category danger, then redirect, the model never invoked) is taken
exactly when the extracted text contains the substring "Error"; when it does
not, the handler's outcome is determined by the model call.  The second
conjunct of the error case states the model independence: two environments
differing only in the pro-tier model give the same result, so the model is
never consulted on that path (app.py lines 214-225). -/
theorem c3_error_substring_heuristic (env : Env) (filename : String) (fs : List String)
    (h1 : filename ≠ "") (h2 : allowed_file filename = true) :
    (pyIn "Error".data (analyzer_resume_text env filename).data = true →
      (analyzer env true filename fs).1
        = Response.redirectFlash "/analyzer"
            ("Error processing file: " ++ analyzer_resume_text env filename) "danger"
      ∧ ∀ llm1 llm2 : String → Except String String,
          analyzer (Env.mk env.pdfOpen env.docxOpen llm1 env.llmFlash env.md) true filename fs
            = analyzer (Env.mk env.pdfOpen env.docxOpen llm2 env.llmFlash env.md) true filename fs)
    ∧ (pyIn "Error".data (analyzer_resume_text env filename).data = false →
        ∀ t : String, env.llmPro (analyzer_prompt env filename) = Except.ok t →
          (analyzer env true filename fs).1 = Response.render "analyzer.html" (some (env.md t)))
    ∧ (pyIn "Error".data (analyzer_resume_text env filename).data = false →
        ∀ e : String, env.llmPro (analyzer_prompt env filename) = Except.error e →
          (analyzer env true filename fs).1
            = Response.redirectFlash "/analyzer" ("Error analyzing resume: " ++ e) "danger") := by
  refine ⟨?_, ?_, ?_⟩
  · intro hErr
    constructor
    · simp [analyzer, h1, h2, hErr]
    · intro llm1 llm2
      rw [analyzer_error_branch (Env.mk env.pdfOpen env.docxOpen llm1 env.llmFlash env.md)
          filename fs h1 h2 hErr,
        analyzer_error_branch (Env.mk env.pdfOpen env.docxOpen llm2 env.llmFlash env.md)
          filename fs h1 h2 hErr]
      rfl
  · intro hErr t hok
    simp [analyzer, h1, h2, hErr, hok]
  · intro hErr e herr
    simp [analyzer, h1, h2, hErr, herr]

/-- Witness for C3: a DOCX whose genuine paragraph text contains the word
"Error" triggers the extraction-failure redirect. -/
theorem c3_error_substring_heuristic_witness :
    (analyzer (envWithDocx ["My Error resume"]) true "r.docx" []).1
      = Response.redirectFlash "/analyzer"
          ("Error processing file: "
            ++ analyzer_resume_text (envWithDocx ["My Error resume"]) "r.docx") "danger" :=
  ((c3_error_substring_heuristic (envWithDocx ["My Error resume"]) "r.docx" []
    (by decide) (by decide)).1 (by decide)).1

/-- C4: on every analyzer POST path the upload path is absent from the disk
when the handler returns: the paths that never save leave the file system
unchanged, and the saving path removes the file (app.py line 212) before the
"Error" test and before the model call, so extraction failure and a model
exception both still see it deleted. -/
theorem c4_upload_always_deleted (env : Env) (hasFilePart : Bool) (filename : String)
    (fs : List String) (h : analyzer_filepath filename ∉ fs) :
    analyzer_filepath filename ∉ (analyzer env hasFilePart filename fs).2 := by
  unfold analyzer
  cases hasFilePart with
  | false => simpa using h
  | true =>
    by_cases h1 : filename = ""
    · simpa [h1] using h
    · by_cases h2 : allowed_file filename = true
      · simp only [Bool.not_true, Bool.false_eq_true, if_false, if_neg h1, if_pos h2]
        split
        · simp [List.mem_filter]
        · split <;> simp [List.mem_filter]
      · simpa [h1, h2] using h

/-- Witness for C4 at a concrete environment, upload and empty disk. -/
theorem c4_upload_always_deleted_witness :
    analyzer_filepath "r.docx" ∉ (analyzer (envWithDocx ["hello"]) true "r.docx" []).2 :=
  c4_upload_always_deleted (envWithDocx ["hello"]) true "r.docx" [] (by simp)

/-- C8: when the provider call raises, the builder handler returns the
"/builder" redirect flashing "Error generating resume: <exception>" with
category danger, and the analyzer handler (reaching its model call) returns
the "/analyzer" redirect flashing "Error analyzing resume: <exception>" with
category danger; neither exception escapes, since both handlers are total
functions into `Response` (app.py lines 182-188 and 220-225). -/
theorem c8_provider_failure_flashes_danger :
    (∀ (env : Env) (form : String → Option String) (e : String),
      env.llmFlash (builder_prompt form) = Except.error e →
        builder env form
          = Response.redirectFlash "/builder" ("Error generating resume: " ++ e) "danger")
    ∧ (∀ (env : Env) (filename : String) (fs : List String) (e : String),
      filename ≠ "" → allowed_file filename = true →
      pyIn "Error".data (analyzer_resume_text env filename).data = false →
      env.llmPro (analyzer_prompt env filename) = Except.error e →
        (analyzer env true filename fs).1
          = Response.redirectFlash "/analyzer" ("Error analyzing resume: " ++ e) "danger") := by
  constructor
  · intro env form e h
    unfold builder
    rw [h]
  · intro env filename fs e h1 h2 hErr herr
    simp [analyzer, h1, h2, hErr, herr]

/-- Witness for C8: both handlers at a provider that raises "provider down". -/
theorem c8_provider_failure_flashes_danger_witness :
    builder (envWithDocx []) (fun _ => none)
      = Response.redirectFlash "/builder"
          ("Error generating resume: " ++ "provider down") "danger"
    ∧ (analyzer (envWithDocx ["hello"]) true "r.docx" []).1
      = Response.redirectFlash "/analyzer"
          ("Error analyzing resume: " ++ "provider down") "danger" :=
  ⟨c8_provider_failure_flashes_danger.1 (envWithDocx []) (fun _ => none) "provider down" rfl,
   c8_provider_failure_flashes_danger.2 (envWithDocx ["hello"]) "r.docx" [] "provider down"
     (by decide) (by decide) (by decide) rfl⟩


/-- C2 as claimed ("the rendered prompt contains each supplied literal value
exactly once") is false on the code: the builder template interpolates every
field twice, once in the user-information block and once in the YAML
skeleton, so with the concrete Jane Doe form the value "Jane Doe" occurs
exactly twice in the rendered builder prompt, not once. -/
theorem c2_counterexample :
    countOccs "Jane Doe".data (builder_prompt janeForm).data = 2
    ∧ ¬ (countOccs "Jane Doe".data (builder_prompt janeForm).data = 1) := by
  have h : countOccs "Jane Doe".data (builder_prompt janeForm).data = 2 := by
    show countOccs "Jane Doe".data (pyFormat RESUME_BUILDER_PROMPT (builderLookup janeForm)).data = 2
    rw [countOccs_jane "Jane Doe".data (by decide) (by decide) (by decide)]
    decide
  refine ⟨h, ?_⟩
  rw [h]
  decide

/-- C2 amended: with the fixed Jane Doe form, the rendered builder prompt is
the concatenation of the template intro, the rendered user-information
block, the rendered YAML skeleton and the design block; every supplied
literal value occurs exactly twice in the whole prompt — once in its
labelled slot of the user-information block ("Label: value" occurs exactly
once there) and once in its skeleton slot ("  name: ..." and
"  email: ..." shown explicitly) — and within the rendered YAML skeleton
the section keys occur in the exact order professional_summary, experience,
education, projects, skills, interests, languages. -/
theorem c2_amended :
    builder_prompt janeForm
      = BUILDER_PROMPT_INTRO ++ (janeUserInfo ++ (janeSkel ++ BUILDER_DESIGN_BLOCK))
    ∧ countOccs "Jane Doe".data (builder_prompt janeForm).data = 2
    ∧ countOccs "jane@x.com".data (builder_prompt janeForm).data = 2
    ∧ countOccs "555-0100".data (builder_prompt janeForm).data = 2
    ∧ countOccs "janedoe-li".data (builder_prompt janeForm).data = 2
    ∧ countOccs "janedoe-gh".data (builder_prompt janeForm).data = 2
    ∧ countOccs "BSc Example University".data (builder_prompt janeForm).data = 2
    ∧ countOccs "Analyst at Acme".data (builder_prompt janeForm).data = 2
    ∧ countOccs "Project Zeta".data (builder_prompt janeForm).data = 2
    ∧ countOccs "SQL and Python".data (builder_prompt janeForm).data = 2
    ∧ countOccs "chess".data (builder_prompt janeForm).data = 2
    ∧ countOccs "English and French".data (builder_prompt janeForm).data = 2
    ∧ countOccs "Name: Jane Doe\n".data janeUserInfo.data = 1
    ∧ countOccs "Email: jane@x.com\n".data janeUserInfo.data = 1
    ∧ countOccs "Phone: 555-0100\n".data janeUserInfo.data = 1
    ∧ countOccs "LinkedIn: janedoe-li\n".data janeUserInfo.data = 1
    ∧ countOccs "GitHub: janedoe-gh\n".data janeUserInfo.data = 1
    ∧ countOccs "Education: BSc Example University\n".data janeUserInfo.data = 1
    ∧ countOccs "Experience: Analyst at Acme\n".data janeUserInfo.data = 1
    ∧ countOccs "Projects: Project Zeta\n".data janeUserInfo.data = 1
    ∧ countOccs "Skills: SQL and Python\n".data janeUserInfo.data = 1
    ∧ countOccs "Interests: chess\n".data janeUserInfo.data = 1
    ∧ countOccs "Languages: English and French\n".data janeUserInfo.data = 1
    ∧ countOccs "  name: Jane Doe\n".data janeSkel.data = 1
    ∧ countOccs "  email: jane@x.com\n".data janeSkel.data = 1
    ∧ inOrder (sectionKeys.map String.data) janeSkel.data = true := by
  refine ⟨?_, ?_, ?_, ?_, ?_, ?_, ?_, ?_, ?_, ?_, ?_, ?_, ?_, ?_, ?_, ?_, ?_, ?_, ?_, ?_, ?_, ?_, ?_, ?_, ?_, ?_⟩
  · show pyFormat RESUME_BUILDER_PROMPT (builderLookup janeForm)
      = BUILDER_PROMPT_INTRO ++ (janeUserInfo ++ (janeSkel ++ BUILDER_DESIGN_BLOCK))
    rw [builder_render_eq janeForm, jane_user_eq, jane_skel_eq]
  · show countOccs "Jane Doe".data (pyFormat RESUME_BUILDER_PROMPT (builderLookup janeForm)).data = 2
    rw [countOccs_jane "Jane Doe".data (by decide) (by decide) (by decide)]
    decide
  · show countOccs "jane@x.com".data (pyFormat RESUME_BUILDER_PROMPT (builderLookup janeForm)).data = 2
    rw [countOccs_jane "jane@x.com".data (by decide) (by decide) (by decide)]
    decide
  · show countOccs "555-0100".data (pyFormat RESUME_BUILDER_PROMPT (builderLookup janeForm)).data = 2
    rw [countOccs_jane "555-0100".data (by decide) (by decide) (by decide)]
    decide
  · show countOccs "janedoe-li".data (pyFormat RESUME_BUILDER_PROMPT (builderLookup janeForm)).data = 2
    rw [countOccs_jane "janedoe-li".data (by decide) (by decide) (by decide)]
    decide
  · show countOccs "janedoe-gh".data (pyFormat RESUME_BUILDER_PROMPT (builderLookup janeForm)).data = 2
    rw [countOccs_jane "janedoe-gh".data (by decide) (by decide) (by decide)]
    decide
  · show countOccs "BSc Example University".data (pyFormat RESUME_BUILDER_PROMPT (builderLookup janeForm)).data = 2
    rw [countOccs_jane "BSc Example University".data (by decide) (by decide) (by decide)]
    decide
  · show countOccs "Analyst at Acme".data (pyFormat RESUME_BUILDER_PROMPT (builderLookup janeForm)).data = 2
    rw [countOccs_jane "Analyst at Acme".data (by decide) (by decide) (by decide)]
    decide
  · show countOccs "Project Zeta".data (pyFormat RESUME_BUILDER_PROMPT (builderLookup janeForm)).data = 2
    rw [countOccs_jane "Project Zeta".data (by decide) (by decide) (by decide)]
    decide
  · show countOccs "SQL and Python".data (pyFormat RESUME_BUILDER_PROMPT (builderLookup janeForm)).data = 2
    rw [countOccs_jane "SQL and Python".data (by decide) (by decide) (by decide)]
    decide
  · show countOccs "chess".data (pyFormat RESUME_BUILDER_PROMPT (builderLookup janeForm)).data = 2
    rw [countOccs_jane "chess".data (by decide) (by decide) (by decide)]
    decide
  · show countOccs "English and French".data (pyFormat RESUME_BUILDER_PROMPT (builderLookup janeForm)).data = 2
    rw [countOccs_jane "English and French".data (by decide) (by decide) (by decide)]
    decide
  · decide
  · decide
  · decide
  · decide
  · decide
  · decide
  · decide
  · decide
  · decide
  · decide
  · decide
  · decide
  · decide
  · decide

/-- C10: a form field absent from the POST (so `request.form.get` returned
`None`) is passed to `str.format` as `None` and rendered as the literal
four-character string "None", not as an empty string: the builder lookup
maps every absent field of the eleven to "None"; with all eleven fields
absent the rendered prompt contains "None" exactly 22 times (each of the
eleven fields in both its slots), the labelled lines read e.g.
"Name: None"/"Email: None", and the empty-substitution line "Name: \n" does
not occur (app.py lines 164-180). -/
theorem c10_missing_field_renders_none :
    (∀ (form : String → Option String) (k : String), k ∈ builderFields → form k = none →
      builderLookup form k = "None")
    ∧ countOccs "None".data (builder_prompt (fun _ => none)).data = 22
    ∧ countOccs "Name: None\n".data (builder_prompt (fun _ => none)).data = 1
    ∧ countOccs "Email: None\n".data (builder_prompt (fun _ => none)).data = 1
    ∧ pyIn "Name: \n".data (builder_prompt (fun _ => none)).data = false := by
  refine ⟨?_, ?_, ?_, ?_, ?_⟩
  · intro form k hk hnone
    fin_cases hk <;> simp [builderLookup, hnone, pyStr]
  · show countOccs "None".data (pyFormat RESUME_BUILDER_PROMPT (builderLookup (fun _ => none))).data = 22
    rw [countOccs_noneForm "None".data (by decide) (by decide) (by decide)]
    decide
  · show countOccs "Name: None\n".data
        (pyFormat RESUME_BUILDER_PROMPT (builderLookup (fun _ => none))).data = 1
    rw [countOccs_noneForm "Name: None\n".data (by decide) (by decide) (by decide)]
    decide
  · show countOccs "Email: None\n".data
        (pyFormat RESUME_BUILDER_PROMPT (builderLookup (fun _ => none))).data = 1
    rw [countOccs_noneForm "Email: None\n".data (by decide) (by decide) (by decide)]
    decide
  · show pyIn "Name: \n".data
        (pyFormat RESUME_BUILDER_PROMPT (builderLookup (fun _ => none))).data = false
    rw [pyIn_noneForm "Name: \n".data (by decide) (by decide) (by decide)]
    decide

/-- Witness for C10: the absent "name" field of the all-absent form is
substituted as "None". -/
theorem c10_missing_field_renders_none_witness :
    builderLookup (fun _ => none) "name" = "None" :=
  c10_missing_field_renders_none.1 (fun _ => none) "name" (by decide) rfl
